import Mathlib

/-!
Verification development for the carlos-trade-executor repository.

Prices and quantities are modelled as exact rationals.  Python float
rounding helpers, `round(x, d)` and string formatting, are modelled by
exact decimal rounding on rationals; no settled statement depends on a
rounding tie.  Exceptions are modelled with `Option` and `Except`;
network and exchange interactions are modelled by explicit environment
records whose fields describe what each external call would report.
-/

/-- Rounding to `d` decimal places, modelling the numeric value of
Python `round(x, d)` and of `"{:.df}".format(x)` away from ties. -/
def roundDp (d : Nat) (x : ℚ) : ℚ := (round (x * (10 : ℚ) ^ d) : ℤ) / (10 : ℚ) ^ d

/-- Rounding to 4 decimal places as used throughout `atr_strategy.py`. -/
def round4 (x : ℚ) : ℚ := roundDp 4 x

/-- Truncation toward zero, modelling Python `int()` on a float. -/
def pyInt (q : ℚ) : ℤ := if 0 ≤ q then ⌊q⌋ else ⌈q⌉

/-- Price normalization from `utils/price_utils.py` (`normalize_price`).
The coin-specific membership test `base_currency in config.NORMALIZATION_COINS`
is abstracted into the boolean `isNormCoin`; the thresholds and divisors are
the constants from `config.py`. -/
def normalize_price (isNormCoin : Bool) (price : ℚ) : ℚ :=
  if isNormCoin then
    if price > 1000 then
      if price > 10000 then price / 100000 else price / 1000
    else price
  else price

/-- Quantity formatting from `utils/price_utils.py` (`format_quantity`),
modelled at the level of the numeric value of the produced string
(trailing-zero stripping does not change the value).  `isIntCoin` abstracts
`base_currency in config.INTEGER_COINS`; `precision` is the per-coin decimal
precision used for non-integer coins. -/
def format_quantity (isIntCoin : Bool) (precision : Nat) (q : ℚ) : ℚ :=
  if isIntCoin then
    if 1 < q then (pyInt q : ℚ) else roundDp 8 q
  else roundDp precision q

/-!
ATR strategy (`strategies/atr_strategy.py`).

`calculate_atr` fetches prices, touches a cache and can itself raise
(its exception handler reads a possibly-unbound local variable).  The three
level calculators below therefore take the ATR outcome as an argument:
`some a` models `calculate_atr` returning the value `a`, `none` models the
paths on which the ATR computation raised (the surrounding handler of the
caller then returns the fallback) or, for `calculate_take_profit`, returned
a falsy value caught by `if not atr`.
-/

/-- Stop-loss calculation from `atr_strategy.py`, `calculate_stop_loss`
(lines 98-140).  `swing_low = some s` with `s ≠ 0` models a truthy supplied
swing low; `atr = none` models the exception path whose handler returns
`round(entry_price * 0.95, 4)`. -/
def calculate_stop_loss (entry_price : ℚ) (swing_low : Option ℚ)
    (atr : Option ℚ) (multiplier : ℚ) : ℚ :=
  match atr with
  | none => round4 (entry_price * (95 / 100))
  | some a =>
    let atr_stop_loss := entry_price - a * multiplier
    match swing_low with
    | none => round4 atr_stop_loss
    | some s =>
      if s ≠ 0 ∧ s < entry_price then
        round4 (min atr_stop_loss s * (99 / 100))
      else round4 atr_stop_loss

/-- Take-profit calculation from `atr_strategy.py`, `calculate_take_profit`
(lines 142-202).  A non-positive entry price raises `ValueError` inside the
`try` block; the handler absorbs it and returns `round(entry_price * 1.03, 4)`.
`atr = none` models `calculate_atr` returning a falsy value or raising, both
of which end in the same fallback.  A supplied resistance equal to `0` is
falsy in Python and is ignored, as is the conversion-failure branch. -/
def calculate_take_profit (entry_price : ℚ) (atr : Option ℚ)
    (resistance_level : Option ℚ) (multiplier : ℚ) : ℚ :=
  if entry_price ≤ 0 then round4 (entry_price * (103 / 100))
  else
    match atr with
    | none => round4 (entry_price * (103 / 100))
    | some a0 =>
      let a := if a0 ≤ 0 then entry_price * (2 / 100) else a0
      let minimum_tp_distance := entry_price + a * multiplier
      let final_take_profit :=
        match resistance_level with
        | none => minimum_tp_distance
        | some r =>
          if r = 0 then minimum_tp_distance
          else if r > minimum_tp_distance then r else minimum_tp_distance
      round4 (min final_take_profit (entry_price * (110 / 100)))

/-- Trailing-stop calculation from `atr_strategy.py`, `calculate_trailing_stop`
(lines 204-245).  Both the current price and a supplied highest price are
passed through `normalize_price`; a missing highest price defaults to the
(normalized) current price.  `atr = none` models the path on which
`calculate_atr` raises: the handler returns the current stop together with
the already-normalized highest price. -/
def calculate_trailing_stop (isNormCoin : Bool) (atr : Option ℚ)
    (multiplier : ℚ) (current_price : ℚ) (current_stop_loss : ℚ)
    (highest_price : Option ℚ) : ℚ × ℚ :=
  let p := normalize_price isNormCoin current_price
  let h :=
    match highest_price with
    | none => p
    | some hp => normalize_price isNormCoin hp
  match atr with
  | none => (current_stop_loss, h)
  | some a =>
    if p > h then
      let new_stop_loss := p - a * multiplier
      if new_stop_loss > current_stop_loss then (new_stop_loss, p)
      else (current_stop_loss, h)
    else (current_stop_loss, h)

/-!
Position data model (`strategies/position_manager.py`, class `Position`).
Only the fields the verified operations touch are modelled; timestamps are
omitted.  Note that the class defines `price` (the entry price) and no
attribute named `entry_price`; this matters for the background sweep below.
-/

/-- Position record mirroring `position_manager.py` class `Position`. -/
structure Position where
  symbol : String
  order_id : String
  row_index : Nat
  quantity : ℚ
  price : ℚ
  stop_loss : ℚ
  take_profit : ℚ
  highest_price : ℚ
  status : String
  tp_order_id : Option String
  sl_order_id : Option String
  is_open : Bool
  exit_price : Option ℚ
  exit_type : Option String
  pnl : Option ℚ
deriving DecidableEq, Repr

/-- Constructor defaults of `Position.__init__`: `highest_price` seeds from
`price`, the position starts open with no exit data. -/
def mkPosition (symbol order_id : String) (row_index : Nat)
    (quantity price stop_loss take_profit : ℚ) (status : String)
    (tp_order_id sl_order_id : Option String) : Position :=
  { symbol := symbol, order_id := order_id, row_index := row_index,
    quantity := quantity, price := price, stop_loss := stop_loss,
    take_profit := take_profit, highest_price := price, status := status,
    tp_order_id := tp_order_id, sl_order_id := sl_order_id,
    is_open := true, exit_price := none, exit_type := none, pnl := none }

/-!
Order fill monitor (`position_manager.py`, `_monitor_order`, lines 447-522).

Each loop iteration issues one `private/get-order-detail` request.  The
outcome of the n-th request overall is given by a stream `polls : Nat -> PollOutcome`:
`err` covers both a raised exception and a response whose `code` is nonzero
(lines 472-476 and 515-519, which sleep, increment `checks` and continue);
`ok status cq ap` covers a well-formed response.

The Python loop is not structurally terminating: the branch for status
`CANCELED` with `cumulative_quantity == 0` and `checks < 2` (lines 503-506)
falls through to the next iteration without incrementing `checks` and without
sleeping.  The model therefore takes explicit `fuel`, the number of loop
iterations (= requests) the run is allowed; `none` means the source loop has
still not returned after that many iterations.
-/

/-- Outcome of one order-detail request as seen by `_monitor_order`. -/
inductive PollOutcome where
  | err : PollOutcome
  | ok (status : String) (cumulative_quantity : ℚ) (avg_price : ℚ) : PollOutcome
deriving DecidableEq, Repr

/-- Result of `_monitor_order`, tagged with which return statement produced
it: `filledOk pos` is the two `return True` sites (order treated as filled,
position mutated), `cancelledNoExec pos` is the `return False` at line 506
(cancelled with no execution), `timedOut pos` is the `return False` after the
loop (line 522).  The Python caller observes only the boolean. -/
inductive MonitorResult where
  | filledOk (pos : Position) : MonitorResult
  | cancelledNoExec (pos : Position) : MonitorResult
  | timedOut (pos : Position) : MonitorResult
deriving DecidableEq, Repr

/-- Boolean value `_monitor_order` actually returns for each result. -/
def MonitorResult.toBool : MonitorResult → Bool
  | .filledOk _ => true
  | .cancelledNoExec _ => false
  | .timedOut _ => false

/-- Loop body of `_monitor_order`: state is the index `n` of the next request
and the Python `checks` counter.  Mirrors lines 465-522 branch by branch. -/
def monitor_order_go (polls : Nat → PollOutcome) (max_checks : Nat)
    (pos : Position) : Nat → Nat → Nat → Option MonitorResult
  | 0, _, _ => none
  | fuel + 1, n, checks =>
    if checks < max_checks then
      match polls n with
      | .err => monitor_order_go polls max_checks pos fuel (n + 1) (checks + 1)
      | .ok status cq ap =>
        if status = "CANCELED" ∧ cq > 0 then
          some (.filledOk { pos with quantity := cq, price := ap,
                                     status := "POSITION_ACTIVE" })
        else if status = "FILLED" then
          some (.filledOk { pos with quantity := cq, price := ap,
                                     status := "POSITION_ACTIVE" })
        else if status = "CANCELED" ∧ cq = 0 then
          if 2 ≤ checks then some (.cancelledNoExec pos)
          else monitor_order_go polls max_checks pos fuel (n + 1) checks
        else monitor_order_go polls max_checks pos fuel (n + 1) (checks + 1)
    else some (.timedOut pos)

/-- Entry point of `_monitor_order` (checks start at 0, first request is 0). -/
def monitor_order (polls : Nat → PollOutcome) (max_checks : Nat)
    (pos : Position) (fuel : Nat) : Option MonitorResult :=
  monitor_order_go polls max_checks pos fuel 0 0

/-!
Position store (`PositionManager.positions`, a symbol-keyed dict guarded by
a lock) modelled as an association list keyed by `Position.symbol`, and the
sell-side lifecycle (`execute_sell`, lines 341-445).
-/

/-- Lookup in the position store (`get_position` / `self.positions.get`). -/
def store_get (store : List Position) (symbol : String) : Option Position :=
  store.find? (fun p => p.symbol = symbol)

/-- In-place mutation of the stored position object for one symbol, as Python
attribute assignment on the shared object does. -/
def store_update (store : List Position) (symbol : String)
    (newPos : Position) : List Position :=
  store.map (fun p => if p.symbol = symbol then newPos else p)

/-- Base currency of an instrument, Python `symbol.split('_')[0]`. -/
def base_currency (symbol : String) : String :=
  (symbol.splitOn "_").headD symbol

/-- Sell signal fields consumed by `execute_sell`: `last_price` is
`float(signal.get('last_price', 0))`. -/
structure SellSignal where
  symbol : String
  row_index : Nat
  last_price : ℚ
deriving DecidableEq, Repr

/-- Environment for `execute_sell`: what each external call would report.
`coin_balance` models `get_coin_balance` (which swallows its own errors and
returns a numeric string); `current_price` models `get_current_price`, which
can raise after exhausting its retries (`.error`) or return a value, with
`none`/`0` falsy; `cancel_order` models `cancel_order` (never raises);
`sell_coin_result` models the order id returned by `sell_coin` (which
swallows its own errors); `order_polls` is what the fill monitor would
observe for the sell order, were it ever reached. -/
structure TraderEnv where
  coin_balance : String → ℚ
  current_price : Except Unit (Option ℚ)
  cancel_order : String → Bool
  sell_coin_result : ℚ → Option String
  order_polls : Nat → PollOutcome

/-- Stop-loss half of `_cancel_tp_sl_orders` (lines 671-678): the id is
cleared from the position only when `cancel_order` reports success. -/
def cancel_sl_step (env : TraderEnv) (pos : Position) : Position :=
  match pos.sl_order_id with
  | some oid => if env.cancel_order oid then { pos with sl_order_id := none } else pos
  | none => pos

/-- Take-profit half of `_cancel_tp_sl_orders` (lines 680-687). -/
def cancel_tp_step (env : TraderEnv) (pos : Position) : Position :=
  match pos.tp_order_id with
  | some oid => if env.cancel_order oid then { pos with tp_order_id := none } else pos
  | none => pos

/-- Cancellation of resting protective orders
(`_cancel_tp_sl_orders`, lines 658-696): first the stop-loss order, then
the take-profit order. -/
def cancel_tp_sl_orders (env : TraderEnv) (pos : Position) : Position :=
  cancel_tp_step env (cancel_sl_step env pos)

/-- Sell execution (`execute_sell`, lines 341-445), returning the reported
boolean and the resulting store.

Faithfulness notes tied to the source:
* Lines 350-369: with no tracked position, a positive live balance yields a
  synthetic `Position(symbol, 'manual', row_index, quantity=balance,
  status='POSITION_ACTIVE')`; otherwise the call returns `False`.
* Lines 374-376: resting protective orders are cancelled first; the tracked
  position object is mutated in place, so the store sees the cleared ids.
* Lines 378-383: a missing price (`None` or `0`) returns `False`; a raised
  price fetch is caught by the handler at line 443 and also returns `False`.
* Line 394 invokes `self._monitor_order(position, order_id=sell_order_id)`,
  but `_monitor_order` (line 447) accepts no parameter named `order_id`, so
  Python raises `TypeError` at the call; the handler at line 443 catches it
  and returns `False`.  Every statement after line 394 is unreachable, which
  is why the success branch of the source does not appear below. -/
def execute_sell_after (env : TraderEnv) (store1 : List Position)
    (sig : SellSignal) (pos1 : Position) : Bool × List Position :=
  match (if 0 < sig.last_price then Except.ok (some sig.last_price)
         else env.current_price) with
  | .error _ => (false, store1)
  | .ok pOpt =>
    match pOpt with
    | none => (false, store1)
    | some p =>
      if p = 0 then (false, store1)
      else
        match env.sell_coin_result pos1.quantity with
        | none => (false, store1)
        | some _sell_order_id =>
          -- `TypeError` raised at the `_monitor_order(position,
          -- order_id=...)` call, caught by the outer handler.
          (false, store1)

/-- Sell execution (`execute_sell`, lines 341-445), returning the reported
boolean and the resulting store; the part after position resolution and
protective-order cancellation is `execute_sell_after` above.

Faithfulness notes tied to the source:
* Lines 350-369: with no tracked position, a positive live balance yields a
  synthetic `Position(symbol, 'manual', row_index, quantity=balance,
  status='POSITION_ACTIVE')` with no protective-order ids (so the
  cancellation step does nothing for it); otherwise the call returns
  `False`.
* Lines 374-376: resting protective orders are cancelled first; the tracked
  position object is mutated in place, so the store sees the cleared ids.
* Lines 378-383 (in `execute_sell_after`): a missing price (`None` or `0`)
  returns `False`; a raised price fetch is caught by the handler at line
  443 and also returns `False`.
* Lines 386-391 (in `execute_sell_after`): the sell is submitted for
  `position.quantity`; a rejected submission returns `False`.
* Line 394 invokes `self._monitor_order(position, order_id=sell_order_id)`,
  but `_monitor_order` (line 447) accepts no parameter named `order_id`, so
  Python raises `TypeError` at the call; the handler at line 443 catches it
  and returns `False`.  Every statement after line 394 is unreachable,
  which is why the success branch of the source does not appear in
  `execute_sell_after`. -/
def execute_sell (env : TraderEnv) (store : List Position)
    (sig : SellSignal) : Bool × List Position :=
  match store_get store sig.symbol with
  | some pos =>
    if pos.tp_order_id.isSome || pos.sl_order_id.isSome then
      execute_sell_after env
        (store_update store sig.symbol (cancel_tp_sl_orders env pos)) sig
        (cancel_tp_sl_orders env pos)
    else execute_sell_after env store sig pos
  | none =>
    if 0 < env.coin_balance (base_currency sig.symbol) then
      execute_sell_after env store sig
        (mkPosition sig.symbol "manual" sig.row_index
          (env.coin_balance (base_currency sig.symbol)) 0 0 0
          "POSITION_ACTIVE" none none)
    else (false, store)

/-!
Background exchange sweep (`position_manager.py`, `update_position_status`,
lines 788-893).  The per-position loop body (lines 811-888) contains no
exception handler: any exception raised while handling one position
propagates out of `update_position_status` (it is only caught one level up,
in the thread loop `update_positions_periodically`, line 918).
-/

/-- Truthiness of an optional rational, Python `if x:` on `None`/float. -/
def truthyQ : Option ℚ → Bool
  | none => false
  | some v => if v = 0 then false else true

/-- Environment for the background sweep.  `order_status` models
`get_order_status`, which catches its own exceptions and returns `None` on
failure; `current_price` models `get_current_price`, which re-raises after
exhausting its retries (`.error`); `row_index_of` models
`_get_row_index_for_symbol` (never raises); `has_notifier` tells whether a
Telegram notifier is configured. -/
structure SweepEnv where
  order_status : String → Option String
  current_price : String → Except String (Option ℚ)
  row_index_of : String → Option Nat
  has_notifier : Bool

/-- Processing of one open position inside the sweep loop (lines 811-888).
Returns the updated position and whether it was counted as closed, or the
exception that aborted the iteration:

* Lines 821-832: the protective order statuses are fetched (failures inside
  `get_order_status` surface as `none` and never raise).
* Lines 835-859: on a fill, the position is marked closed and the opposite
  order id is cleared after a best-effort cancel.
* Line 862: `position.entry_price` is read, but class `Position` defines no
  such attribute (the entry price field is `price`), so whenever
  `position.exit_price` is truthy Python raises `AttributeError` here.
* Line 885: when a notifier is configured, `position.pnl:.2f` formats the
  still-`None` pnl field and raises `TypeError`. -/
def process_open_position (env : SweepEnv) (pos : Position) :
    Except String (Position × Bool) :=
  let tp_filled : Bool :=
    match pos.tp_order_id with
    | some oid => if env.order_status oid = some "FILLED" then true else false
    | none => false
  let sl_filled : Bool :=
    match pos.sl_order_id with
    | some oid => if env.order_status oid = some "FILLED" then true else false
    | none => false
  if tp_filled || sl_filled then
    match env.current_price pos.symbol with
    | .error e => .error e
    | .ok cp =>
      let pos1 :=
        { pos with is_open := false, exit_price := cp,
                   exit_type := some (if tp_filled then "tp" else "sl"),
                   sl_order_id := if tp_filled then none else pos.sl_order_id,
                   tp_order_id := if tp_filled then pos.tp_order_id else none }
      if truthyQ cp then
        .error "AttributeError: Position object has no attribute entry_price"
      else if env.has_notifier then
        .error "TypeError: unsupported format string passed to NoneType"
      else .ok (pos1, true)
  else .ok (pos, false)

/-- Sweep loop over the open positions (lines 807-888).  Returns the list of
symbols whose iteration was entered, and either the closed count or the
exception that aborted the sweep.  Positions after the aborting one are
never examined. -/
def update_position_status (env : SweepEnv) :
    List Position → Nat → List String → List String × Except String Nat
  | [], closed, visited => (visited.reverse, .ok closed)
  | p :: rest, closed, visited =>
    if p.is_open then
      match process_open_position env p with
      | .error e => ((p.symbol :: visited).reverse, .error e)
      | .ok (_, didClose) =>
        update_position_status env rest (closed + (if didClose then 1 else 0))
          (p.symbol :: visited)
    else update_position_status env rest closed visited

/-!
Market-sell submission (`api/crypto_exchange_api.py`, `sell_coin`,
lines 416-555, and `_batch_sell_coin`, lines 557-686).

Each `private/create-order` request the flow sends is recorded in a trace
together with the value of a monotone clock; `time.sleep(2)` advances the
clock by 2 and nothing else does (request transmission is modelled as
instantaneous).  The response to the k-th request of the flow is
`respond k`.  String-formatted quantities are modelled by their numeric
value through `format_quantity`.
-/

/-- Response of `send_request` to one order request: `ok oid` is `code == 0`
with an order id in the result; `err code213 invalidFormatMsg` is a nonzero
code, recording whether the code is `213` and whether the message contains
the text `Invalid quantity format`; `exn` means `send_request` raised after
its retries. -/
inductive ApiResp where
  | ok (oid : String) : ApiResp
  | err (code213 : Bool) (invalidFormatMsg : Bool) : ApiResp
  | exn : ApiResp
deriving DecidableEq, Repr

/-- One recorded order request: time of submission and the parameter dict
fields that matter here (`side`, `type`, and which of `quantity`/`notional`
is present, with the numeric value of the sent string). -/
structure SellReq where
  time : Nat
  side : String
  order_type : String
  quantity : Option ℚ
  notional : Option ℚ
deriving DecidableEq, Repr

/-- Every sell-path request is built with `side=SELL`, `type=MARKET` and a
`quantity` parameter, mirroring the literal dicts at lines 477-486, 524-532,
610-619, 642-650 and 667-675. -/
def mkSellReq (t : Nat) (q : ℚ) : SellReq :=
  { time := t, side := "SELL", order_type := "MARKET",
    quantity := some q, notional := none }

/-- Environment of the sell flow.  `respond k` answers the k-th order
request; `price` is the `get_current_price` outcome (`.error` models a raise
after retries, `none` a failed lookup); `balance0` is the balance consulted
when no quantity is supplied; `live_balance` is the balance re-queried by
the last batch of `_batch_sell_coin`. -/
structure ExchangeEnv where
  respond : Nat → ApiResp
  price : Except Unit (Option ℚ)
  balance0 : ℚ
  live_balance : ℚ

/-- Result of the `_batch_sell_coin` loop: collected order ids, next request
index, clock, and trace; or the trace at the point a raised `send_request`
aborted into the enclosing handler. -/
inductive BatchLoopRes where
  | done (succ : List String) (k : Nat) (clock : Nat) (trace : List SellReq) : BatchLoopRes
  | raised (trace : List SellReq) : BatchLoopRes
deriving Repr

/-- Request trace carried by either loop outcome. -/
def BatchLoopRes.trace : BatchLoopRes → List SellReq
  | .done _ _ _ tr => tr
  | .raised tr => tr

/-- Shape of a sell-path order request: a market sell carrying a `quantity`
parameter and no `notional` parameter. -/
def is_quantity_request (r : SellReq) : Prop :=
  r.side = "SELL" ∧ r.order_type = "MARKET" ∧ r.quantity.isSome ∧ r.notional = none

/-- Batch loop of `_batch_sell_coin` (lines 583-655).  `j` is the number of
batches still to run (the source iterates `i in range(num_batches)`; here
`j = num_batches - i`, so `j = 1` is the last batch):

* last batch: re-query the live balance, stop if it is not positive,
  otherwise sell 98 percent of it (lines 584-592);
* other batches: sell `min(max_batch, remaining)` (line 595);
* a formatted quantity that is not positive skips the batch (lines 600-602);
* on success append the order id, subtract the batch quantity and sleep 2
  seconds (lines 621-630);
* on an `Invalid quantity format` message retry once at 99 percent, with no
  sleep and no subtraction (lines 636-655); other failures just move on;
* a raised request aborts into the handler at line 684. -/
def batch_loop (env : ExchangeEnv) (isIntCoin : Bool) (precision : Nat)
    (maxBatch : ℚ) :
    Nat → ℚ → List String → Nat → Nat → List SellReq → BatchLoopRes
  | 0, _, succ, k, clock, trace => .done succ k clock trace
  | j + 1, remaining, succ, k, clock, trace =>
    let continueWith := fun (batch_q : ℚ) =>
      let fq := format_quantity isIntCoin precision batch_q
      if fq ≤ 0 then
        batch_loop env isIntCoin precision maxBatch j remaining succ k clock trace
      else
        let req := mkSellReq clock fq
        match env.respond k with
        | .ok oid =>
          batch_loop env isIntCoin precision maxBatch j (remaining - batch_q)
            (succ ++ [oid]) (k + 1) (clock + 2) (trace ++ [req])
        | .err _ invalidFormatMsg =>
          if invalidFormatMsg then
            let fq2 := format_quantity isIntCoin precision (batch_q * (99 / 100))
            let req2 := mkSellReq clock fq2
            match env.respond (k + 1) with
            | .ok oid2 =>
              batch_loop env isIntCoin precision maxBatch j remaining
                (succ ++ [oid2]) (k + 2) clock (trace ++ [req, req2])
            | .err _ _ =>
              batch_loop env isIntCoin precision maxBatch j remaining succ
                (k + 2) clock (trace ++ [req, req2])
            | .exn => .raised (trace ++ [req, req2])
          else
            batch_loop env isIntCoin precision maxBatch j remaining succ
              (k + 1) clock (trace ++ [req])
        | .exn => .raised (trace ++ [req])
    if j = 0 then
      if env.live_balance ≤ 0 then .done succ k clock trace
      else continueWith (env.live_balance * (98 / 100))
    else continueWith (min maxBatch remaining)

/-- Final 50-percent attempt of `_batch_sell_coin` (lines 662-682). -/
def final_half_sell (env : ExchangeEnv) (isIntCoin : Bool) (precision : Nat)
    (total : ℚ) (k clock : Nat) (trace : List SellReq) :
    Option String × List SellReq :=
  let fq := format_quantity isIntCoin precision (total * (1 / 2))
  let req := mkSellReq clock fq
  match env.respond k with
  | .ok oid => (some oid, trace ++ [req])
  | _ => (none, trace ++ [req])

/-- Post-loop processing of `_batch_sell_coin` (lines 657-682): a raised
loop aborts into the handler at line 684 and returns `None`; otherwise the
first collected order id is returned (line 660), or, with no successes, a
final attempt sells 50 percent of the total. -/
def batch_postprocess (env : ExchangeEnv) (isIntCoin : Bool) (precision : Nat)
    (total : ℚ) (R : BatchLoopRes) : Option String × List SellReq :=
  match R with
  | .raised trace => (none, trace)
  | .done succ k clock trace =>
    match succ with
    | oid :: _ => (some oid, trace)
    | [] => final_half_sell env isIntCoin precision total k clock trace

/-- Batch seller `_batch_sell_coin` (lines 557-686).  The batch ceiling is
100000 for integer-denominated coins and 100 otherwise (line 573);
`num_batches = int(total/max) + (1 if total % max > 0 else 0)` (line 577).
When the total is within the ceiling the loop is skipped and only the
50-percent attempt runs. -/
def batch_sell_coin (env : ExchangeEnv) (isIntCoin : Bool) (precision : Nat)
    (total : ℚ) (k0 clock0 : Nat) (trace0 : List SellReq) :
    Option String × List SellReq :=
  let maxBatch : ℚ := if isIntCoin then 100000 else 100
  if maxBatch < total then
    let flo := pyInt (total / maxBatch)
    let num_batches : Nat :=
      flo.toNat + (if 0 < total - maxBatch * (flo : ℚ) then 1 else 0)
    batch_postprocess env isIntCoin precision total
      (batch_loop env isIntCoin precision maxBatch num_batches total []
        k0 clock0 trace0)
  else final_half_sell env isIntCoin precision total k0 clock0 trace0

/-- Alternate-format retry ladder of `sell_coin` (lines 503-537): formats
are tried in order, the first accepted one wins; a non-acceptance moves on,
a raised request aborts into the handler at line 553. -/
def retry_formats_loop (env : ExchangeEnv) :
    List ℚ → Nat → List SellReq → Option (Option String × List SellReq)
  | [], _, _ => none
  | f :: rest, k, trace =>
    let req := mkSellReq 0 f
    match env.respond k with
    | .ok oid => some (some oid, trace ++ [req])
    | .err _ _ => retry_formats_loop env rest (k + 1) (trace ++ [req])
    | .exn => some (none, trace ++ [req])

/-- Submission part of `sell_coin` (lines 467-540), given the resolved
quantity `q`: consult the price once more for logging (line 471; a raise
there aborts the whole call through the handler at line 553 with no request
sent), send the single-shot request (lines 477-486), and on a quantity
format rejection (`code == 213` or an `Invalid quantity format` message,
line 499) run the alternate-format ladder and then the batch seller. -/
def sell_coin_submit (env : ExchangeEnv) (isIntCoin : Bool) (precision : Nat)
    (q : ℚ) : Option String × List SellReq :=
  let fq := format_quantity isIntCoin precision q
  match env.price with
  | .error _ => (none, [])
  | .ok _ =>
    let req := mkSellReq 0 fq
    match env.respond 0 with
    | .ok oid => (some oid, [req])
    | .exn => (none, [req])
    | .err code213 invalidFormatMsg =>
      if code213 || invalidFormatMsg then
        let fmts : List ℚ :=
          if isIntCoin then
            [(pyInt q : ℚ), (pyInt (q * (99 / 100)) : ℚ),
             (pyInt (q * (95 / 100)) : ℚ)]
          else [roundDp 1 q, roundDp 0 q, roundDp 8 (q * (99 / 100))]
        match retry_formats_loop env fmts 1 [req] with
        | some result => result
        | none =>
          batch_sell_coin env isIntCoin precision q 4 0
            (req :: (fmts.map (mkSellReq 0)))
      else (none, [req])

/-- Market sell `sell_coin` (lines 416-555), quantity resolution:

* Lines 435-448: a supplied notional triggers the safety conversion:
  divide by the current price; when the price is unobtainable (a raise
  caught at line 553, a `None` result, or a falsy `0`), fail with no
  request sent.
* Lines 450-465: with no quantity, 95 percent of the balance is used.  The
  zero-balance guard at line 455 compares the string `str(balance)` with
  `"0"`; `str` of a Python float never yields `"0"` (zero renders `0.0`),
  so for float balances the guard cannot fire and is not modelled. -/
def sell_coin (env : ExchangeEnv) (isIntCoin : Bool) (precision : Nat)
    (quantity : Option ℚ) (notional : Option ℚ) :
    Option String × List SellReq :=
  match notional with
  | some nv =>
    match env.price with
    | .error _ => (none, [])
    | .ok pOpt =>
      match pOpt with
      | none => (none, [])
      | some p =>
        if p = 0 then (none, [])
        else sell_coin_submit env isIntCoin precision (nv / p)
  | none =>
    match quantity with
    | some q1 => sell_coin_submit env isIntCoin precision q1
    | none => sell_coin_submit env isIntCoin precision (env.balance0 * (95 / 100))

/-- Traces only ever grow: `R` extends `trace` when its trace is `trace`
followed by some suffix. -/
def extends_trace (trace : List SellReq) (R : BatchLoopRes) : Prop :=
  ∃ tl, R.trace = trace ++ tl

/-- All recorded requests of a loop outcome carry a quantity parameter. -/
def quantity_only_res (R : BatchLoopRes) : Prop :=
  ∀ r ∈ R.trace, is_quantity_request r

/-!
Concrete fixtures used by closed statements below.
-/

/-- Sample buy position being monitored. -/
def examplePosition : Position :=
  mkPosition "BTC_USDT" "order-1" 2 1 100 95 110 "ORDER_PLACED" none none

/-- Poll stream whose first two responses are a non-terminal status and the
third reports `CANCELED` with zero cumulative quantity. -/
def pollsLateCancel : Nat → PollOutcome := fun n =>
  if n < 2 then .ok "NEW" 0 0 else .ok "CANCELED" 0 0

/-- Poll stream reporting `CANCELED` with zero cumulative quantity on every
response. -/
def pollsAlwaysCancel : Nat → PollOutcome := fun _ => .ok "CANCELED" 0 0

/-- Open position whose take-profit order rests as `tp-1`. -/
def sweepPositionA : Position :=
  mkPosition "AAA_USDT" "order-a" 2 10 1 (9 / 10) (12 / 10) "POSITION_ACTIVE"
    (some "tp-1") (some "sl-1")

/-- Open position with no resting protective orders. -/
def sweepPositionB : Position :=
  mkPosition "BBB_USDT" "order-b" 3 20 2 (18 / 10) (24 / 10) "POSITION_ACTIVE"
    none none

/-- Sweep environment: the take-profit order `tp-1` reports `FILLED`, every
price fetch succeeds with price 100, no notifier. -/
def sweepEnvFilled : SweepEnv :=
  { order_status := fun oid => if oid = "tp-1" then some "FILLED" else some "ACTIVE",
    current_price := fun _ => .ok (some 100),
    row_index_of := fun _ => none,
    has_notifier := false }

/-- Trader environment for a sell in which every external interaction
succeeds: live balance 5, price 2, cancellations succeed, the exchange
accepts the sell with order id `sell-1`, and status polls for the sell order
would report it `FILLED`. -/
def sellEnvAllGood : TraderEnv :=
  { coin_balance := fun _ => 5,
    current_price := .ok (some 2),
    cancel_order := fun _ => true,
    sell_coin_result := fun _ => some "sell-1",
    order_polls := fun _ => .ok "FILLED" 5 2 }

/-- Sell signal for an untracked symbol with no price hint. -/
def sellSignalXRP : SellSignal := { symbol := "XRP_USDT", row_index := 5, last_price := 0 }

/-!
Theorems for the frozen claims.
-/

/-- C4: for every call to `calculate_trailing_stop`, the returned stop is at
least `current_stop_loss` and the returned highest is at least the effective
highest seen (the supplied highest after normalization, defaulting to the
normalized current price); the stop changes only when the normalized current
price exceeds the effective highest and the candidate `price - atr*multiplier`
exceeds the current stop, in which case `(candidate, price)` is returned,
and otherwise the (effective) inputs are returned unchanged. -/
theorem trailing_stop_monotone_exact (isNorm : Bool) (v m p0 stop : ℚ)
    (hs : Option ℚ) :
    (stop ≤ (calculate_trailing_stop isNorm (some v) m p0 stop hs).1 ∧
      (hs.map (normalize_price isNorm)).getD (normalize_price isNorm p0) ≤
        (calculate_trailing_stop isNorm (some v) m p0 stop hs).2) ∧
    calculate_trailing_stop isNorm (some v) m p0 stop hs =
      (if (hs.map (normalize_price isNorm)).getD (normalize_price isNorm p0) <
            normalize_price isNorm p0 ∧
          stop < normalize_price isNorm p0 - v * m
        then (normalize_price isNorm p0 - v * m, normalize_price isNorm p0)
        else (stop,
          (hs.map (normalize_price isNorm)).getD (normalize_price isNorm p0))) := by
  cases hs with
  | none =>
    simp only [calculate_trailing_stop, Option.map_none, Option.getD_none]
    refine ⟨⟨?_, ?_⟩, ?_⟩ <;> split_ifs <;> simp_all <;> linarith
  | some hp =>
    simp only [calculate_trailing_stop, Option.map_some, Option.getD_some]
    refine ⟨⟨?_, ?_⟩, ?_⟩ <;> split_ifs <;> simp_all <;> linarith

/-- Helper: decimal rounding of an integer value is the identity. -/
theorem round4_intCast (n : ℤ) : round4 ((n : ℚ)) = (n : ℚ) := by
  unfold round4 roundDp
  have h : ((n : ℚ) * 10 ^ 4) = ((n * 10 ^ 4 : ℤ) : ℚ) := by push_cast; ring
  rw [h, round_intCast]
  push_cast
  rw [mul_div_assoc]
  norm_num

/-- C9: for a positive entry price `e`, a supplied (truthy) resistance `r`
and a positive volatility proxy `v`, the take-profit equals
`round(min(if r > e + v*m then r else e + v*m, e * 1.10), 4)`: the
resistance is adopted only when it exceeds the ATR minimum, and the result
is clamped at 10 percent above entry. -/
theorem take_profit_resistance_and_cap (e v r m : ℚ)
    (he : 0 < e) (hv : 0 < v) (hr : r ≠ 0) :
    calculate_take_profit e (some v) (some r) m =
      round4 (min (if r > e + v * m then r else e + v * m)
        (e * (110 / 100))) := by
  simp only [calculate_take_profit]
  rw [if_neg (not_le.mpr he)]
  rw [if_neg (not_le.mpr hv), if_neg hr]

/-- Witness for C9 at the claimed concrete instance: entry 100, resistance
115, volatility proxy 3, multiplier 2 give a minimum of 106, resistance 115
adopted, then clamped to the cap 110. -/
theorem take_profit_resistance_and_cap_witness :
    calculate_take_profit 100 (some 3) (some 115) 2 = 110 := by
  have h := take_profit_resistance_and_cap 100 3 115 2 (by norm_num)
    (by norm_num) (by norm_num)
  rw [h]
  have h110 := round4_intCast 110
  norm_num at h110 ⊢
  exact h110

/-- C10: the risk-level calculators never propagate an exception for a
float-convertible entry price (they are total here, with every source
exception path modelled as an explicit branch), and the error paths return
silent fixed fallbacks: a raised ATR computation yields
`round(entry * 0.95, 4)` for the stop loss and `round(entry * 1.03, 4)` for
the take profit, a non-positive entry in `calculate_take_profit` raises
internally and its handler returns the same `round(entry * 1.03, 4)`, and
the fallback is not distinguishable from a computed level by the return
value alone (a normal-path input produces exactly the fallback value). -/
theorem risk_level_silent_fallbacks (e m a : ℚ) (sw r : Option ℚ) :
    calculate_stop_loss e sw none m = round4 (e * (95 / 100)) ∧
    calculate_take_profit e none r m = round4 (e * (103 / 100)) ∧
    (e ≤ 0 → calculate_take_profit e (some a) r m = round4 (e * (103 / 100))) ∧
    (∃ e0 v0 : ℚ, 0 < e0 ∧ 0 < v0 ∧
      calculate_take_profit e0 (some v0) none 2 = round4 (e0 * (103 / 100))) := by
  refine ⟨rfl, ?_, ?_,
    ⟨100, 3 / 2, by norm_num, by norm_num, by norm_num [calculate_take_profit]⟩⟩
  · unfold calculate_take_profit
    split_ifs <;> rfl
  · intro h0
    unfold calculate_take_profit
    rw [if_pos h0]

/-- Witness for C10: the implication branch applied at a concrete
non-positive entry price. -/
theorem risk_level_silent_fallbacks_witness :
    calculate_take_profit (-5) (some 3) (some 10) 2 =
      round4 ((-5) * (103 / 100)) :=
  (risk_level_silent_fallbacks (-5) 2 3 (some 1) (some 10)).2.2.1 (by norm_num)

/-- C1: whenever the fill monitor is running (the check budget is not yet
exhausted) and the next poll reports status `CANCELED` with a positive
cumulative quantity, the monitor immediately returns success and the
position quantity, price and status are set from the reported fill — on the
very first poll as well as any later one, and whatever the max-checks
budget is. -/
theorem monitor_canceled_partial_fill_success (polls : Nat → PollOutcome)
    (max_checks n checks fuel : Nat) (pos : Position) (cq ap : ℚ)
    (hc : checks < max_checks) (hp : polls n = .ok "CANCELED" cq ap)
    (hq : 0 < cq) (hf : 1 ≤ fuel) :
    monitor_order_go polls max_checks pos fuel n checks =
      some (.filledOk { pos with quantity := cq, price := ap,
                                 status := "POSITION_ACTIVE" }) := by
  obtain ⟨fuel0, rfl⟩ : ∃ f, fuel = f + 1 := ⟨fuel - 1, by omega⟩
  simp only [monitor_order_go, if_pos hc, hp]
  simp [hq]

/-- Witness for C1: a first poll reporting `CANCELED` with cumulative
quantity 5 makes `_monitor_order` succeed at once with that fill, under the
default budget of 30 checks and a single iteration of fuel. -/
theorem monitor_canceled_partial_fill_success_witness :
    monitor_order (fun _ => .ok "CANCELED" 5 (3 / 2)) 30 examplePosition 1 =
      some (.filledOk { examplePosition with quantity := 5, price := 3 / 2,
                                             status := "POSITION_ACTIVE" }) :=
  monitor_canceled_partial_fill_success (fun _ => .ok "CANCELED" 5 (3 / 2))
    30 0 0 1 examplePosition 5 (3 / 2) (by norm_num) rfl (by norm_num)
    (le_refl 1)

set_option maxRecDepth 4000

/-- C2 counterexample: the source debounce is not "two consecutive CANCELED
polls".  First, a run whose polls report a non-terminal status twice and
then `CANCELED` with zero quantity returns the cancellation failure after
that single `CANCELED` observation (the counter reached 2 through unrelated
polls).  Second, the monitor need not terminate within the max-attempts
budget: with every poll reporting `CANCELED` and zero quantity, the loop
has still not returned after 100 poll iterations under a budget of 30. -/
theorem monitor_cancel_debounce_counterexample :
    monitor_order pollsLateCancel 30 examplePosition 3 =
      some (.cancelledNoExec examplePosition) ∧
    pollsLateCancel 0 = .ok "NEW" 0 0 ∧
    pollsLateCancel 1 = .ok "NEW" 0 0 ∧
    pollsLateCancel 2 = .ok "CANCELED" 0 0 ∧
    monitor_order pollsAlwaysCancel 30 examplePosition 100 = none := by
  refine ⟨by decide, rfl, rfl, rfl, by decide⟩

/-- C2 amended: a poll reporting `CANCELED` with zero cumulative quantity
returns the cancellation failure exactly when the `checks` counter — which
counts the polls that slept (error, non-terminal status), not consecutive
`CANCELED` observations — has already reached 2; with `checks < 2` the
monitor instead re-polls immediately without incrementing the counter, so a
persistent `CANCELED` zero-quantity status keeps the loop running past the
max-attempts budget. -/
theorem monitor_cancel_zero_behavior (polls : Nat → PollOutcome)
    (max_checks n checks fuel : Nat) (pos : Position) (ap : ℚ)
    (hc : checks < max_checks) (hp : polls n = .ok "CANCELED" 0 ap) :
    (checks < 2 → 1 ≤ fuel →
      monitor_order_go polls max_checks pos fuel n checks =
        monitor_order_go polls max_checks pos (fuel - 1) (n + 1) checks) ∧
    (2 ≤ checks → 1 ≤ fuel →
      monitor_order_go polls max_checks pos fuel n checks =
        some (.cancelledNoExec pos)) := by
  constructor <;> intro h1 hf <;>
    obtain ⟨fuel0, rfl⟩ : ∃ f, fuel = f + 1 := ⟨fuel - 1, by omega⟩ <;>
    simp only [monitor_order_go, if_pos hc, hp, Nat.add_sub_cancel] <;>
    simp <;> omega

/-- Witness for the amended C2: with an always-cancelled stream, the first
poll at counter 0 just re-polls, and a poll arriving once the counter is 2
returns the cancellation failure. -/
theorem monitor_cancel_zero_behavior_witness :
    (monitor_order_go pollsAlwaysCancel 30 examplePosition 5 0 0 =
      monitor_order_go pollsAlwaysCancel 30 examplePosition 4 1 0) ∧
    (monitor_order_go pollsAlwaysCancel 30 examplePosition 5 7 2 =
      some (.cancelledNoExec examplePosition)) :=
  ⟨(monitor_cancel_zero_behavior pollsAlwaysCancel 30 0 0 5 examplePosition 0
      (by norm_num) rfl).1 (by norm_num) (by norm_num),
   (monitor_cancel_zero_behavior pollsAlwaysCancel 30 7 2 5 examplePosition 0
      (by norm_num) rfl).2 (by norm_num) (by norm_num)⟩

/-- C5: the claim that a failure while processing one position does not
abort the background sweep over the remaining positions is violated by the
code.  With two open positions where the first has a take-profit order the
exchange reports `FILLED` and the current price is available, the loop body
raises `AttributeError` while computing the PnL (line 862 reads
`position.entry_price`, an attribute class `Position` does not define); the
exception propagates out of `update_position_status`, and the second
position is never examined. -/
theorem sweep_abort_on_first_position :
    update_position_status sweepEnvFilled [sweepPositionA, sweepPositionB] 0 []
      = (["AAA_USDT"],
         .error "AttributeError: Position object has no attribute entry_price")
      := rfl

/-- C6: the claim that `execute_sell` on an untracked symbol with positive
balance succeeds is violated by the code.  In an environment where every
external call succeeds — balance 5, price 2, the exchange accepts the sell
and reports the order `FILLED` — `execute_sell` still returns failure: line
394 calls `_monitor_order(position, order_id=...)`, a keyword the method
does not accept, so Python raises `TypeError` and the handler at line 443
returns `False`. -/
theorem execute_sell_untracked_never_succeeds :
    execute_sell sellEnvAllGood [] sellSignalXRP = (false, []) := by decide

/-- Helper: the stop-loss cancellation step keeps the symbol. -/
theorem cancel_sl_step_symbol (env : TraderEnv) (pos : Position) :
    (cancel_sl_step env pos).symbol = pos.symbol := by
  unfold cancel_sl_step
  split
  · split <;> rfl
  · rfl

/-- Helper: the take-profit cancellation step keeps the symbol. -/
theorem cancel_tp_step_symbol (env : TraderEnv) (pos : Position) :
    (cancel_tp_step env pos).symbol = pos.symbol := by
  unfold cancel_tp_step
  split
  · split <;> rfl
  · rfl

/-- Helper: cancelling protective orders only clears order ids and keeps
the symbol. -/
theorem cancel_tp_sl_orders_symbol (env : TraderEnv) (pos : Position) :
    (cancel_tp_sl_orders env pos).symbol = pos.symbol := by
  unfold cancel_tp_sl_orders
  rw [cancel_tp_step_symbol, cancel_sl_step_symbol]

/-- Helper: every branch of the post-resolution sell flow reports failure
and leaves the store it was given untouched. -/
theorem execute_sell_after_shape (env : TraderEnv) (store1 : List Position)
    (sig : SellSignal) (pos1 : Position) :
    execute_sell_after env store1 sig pos1 = (false, store1) := by
  unfold execute_sell_after
  repeat' split
  all_goals rfl

/-- Helper: replacing the stored object for a symbol by one carrying the
same symbol keeps the lookup succeeding. -/
theorem store_update_keeps (store : List Position) (sym : String)
    (q : Position) (hq : q.symbol = sym)
    (h : (store_get store sym).isSome) :
    (store_get (store_update store sym q) sym).isSome := by
  induction store with
  | nil => simp [store_get] at h
  | cons p rest ih =>
    simp only [store_get, store_update, List.map_cons] at h ⊢
    by_cases hp : p.symbol = sym
    · rw [if_pos hp, List.find?_cons_of_pos _ (by simpa using hq)]
      rfl
    · rw [if_neg hp, List.find?_cons_of_neg _ (by simpa using hp)]
      rw [List.find?_cons_of_neg _ (by simpa using hp)] at h
      exact ih h

/-- C7: whenever `execute_sell` runs for a tracked position, it reports
failure and the position remains in the active store; in the source the
success path that removes the position is unreachable (the monitor call at
line 394 raises `TypeError`), so every run reports failure and the only
store mutation is the in-place clearing of cancelled protective-order ids,
which preserves tracking. -/
theorem execute_sell_failure_keeps_position (env : TraderEnv)
    (store : List Position) (sig : SellSignal)
    (h : (store_get store sig.symbol).isSome) :
    (execute_sell env store sig).1 = false ∧
    (store_get (execute_sell env store sig).2 sig.symbol).isSome := by
  obtain ⟨pos, hpos⟩ := Option.isSome_iff_exists.mp h
  have hsym : pos.symbol = sig.symbol := by
    have := List.find?_some hpos
    simpa using this
  have hkeep : (store_get (store_update store sig.symbol
      (cancel_tp_sl_orders env pos)) sig.symbol).isSome :=
    store_update_keeps store sig.symbol _
      (by rw [cancel_tp_sl_orders_symbol, hsym]) h
  unfold execute_sell
  rw [hpos]
  dsimp only
  split
  · rw [execute_sell_after_shape]
    exact ⟨rfl, hkeep⟩
  · rw [execute_sell_after_shape]
    exact ⟨rfl, h⟩

/-- Witness for C7: a tracked position for `BBB_USDT` survives a failing
sell in a fully cooperative environment. -/
theorem execute_sell_failure_keeps_position_witness :
    (execute_sell sellEnvAllGood [sweepPositionB]
        { symbol := "BBB_USDT", row_index := 3, last_price := 0 }).1 = false ∧
    (store_get (execute_sell sellEnvAllGood [sweepPositionB]
        { symbol := "BBB_USDT", row_index := 3, last_price := 0 }).2
      "BBB_USDT").isSome :=
  execute_sell_failure_keeps_position sellEnvAllGood [sweepPositionB]
    { symbol := "BBB_USDT", row_index := 3, last_price := 0 } (by decide)

/-- Helper: Python truncation agrees with the floor on non-negative
arguments. -/
theorem pyInt_floor (q : ℚ) (h : 0 ≤ q) : pyInt q = ⌊q⌋ := by
  unfold pyInt
  rw [if_pos h]

/-- C8: with a requested quantity of 250000 units of an integer-denominated
asset against the 100000-unit ceiling and every submission accepted, the
batch seller submits exactly 3 batches: the first two sell 100000 each, the
third re-queries the live balance `b` and sells 98 percent of it (floored
by integer formatting), at least 2 seconds separate successive submissions,
and the first batch order id is the returned result. -/
theorem batch_sell_decomposition (ids : Nat → String) (b : ℚ)
    (precision : Nat) (pr : Except Unit (Option ℚ)) (bal0 : ℚ)
    (hb : 1 < b * (98 / 100)) :
    batch_sell_coin ⟨fun k => .ok (ids k), pr, bal0, b⟩ true precision
        250000 0 0 [] =
      (some (ids 0),
       [mkSellReq 0 100000, mkSellReq 2 100000,
        mkSellReq 4 ((⌊b * (98 / 100)⌋ : ℤ) : ℚ)]) ∧
    List.Chain' (fun r1 r2 => r1.time + 2 ≤ r2.time)
      [mkSellReq 0 100000, mkSellReq 2 100000,
       mkSellReq 4 ((⌊b * (98 / 100)⌋ : ℤ) : ℚ)] := by
  constructor
  · have hbpos : ¬ ((⟨fun k => .ok (ids k), pr, bal0, b⟩ :
        ExchangeEnv).live_balance ≤ 0) := by
      show ¬ (b ≤ 0)
      intro hle
      nlinarith
    have hfl : (1 : ℤ) ≤ ⌊b * (98 / 100)⌋ := by
      rw [Int.le_floor]
      exact_mod_cast hb.le
    have hflq : ¬ (((⌊b * (98 / 100)⌋ : ℤ) : ℚ) ≤ 0) := by
      push_neg
      exact_mod_cast lt_of_lt_of_le Int.zero_lt_one hfl
    have hf100k : format_quantity true precision 100000 = 100000 := by
      unfold format_quantity
      rw [if_pos rfl, if_pos (by norm_num), pyInt_floor _ (by norm_num)]
      rw [show (100000 : ℚ) = ((100000 : ℤ) : ℚ) by norm_num, Int.floor_intCast]
    have hfb : format_quantity true precision (b * (98 / 100)) =
        ((⌊b * (98 / 100)⌋ : ℤ) : ℚ) := by
      unfold format_quantity
      rw [if_pos rfl, if_pos hb, pyInt_floor _ (by nlinarith)]
    have hflo : pyInt ((250000 : ℚ) / 100000) = 2 := by
      rw [pyInt_floor _ (by norm_num), Int.floor_eq_iff] <;> norm_num
    have hmin1 : min (100000 : ℚ) 250000 = 100000 := by norm_num
    have hmin2 : min (100000 : ℚ) 150000 = 100000 := by norm_num
    have step1 : batch_loop ⟨fun k => .ok (ids k), pr, bal0, b⟩ true precision
        100000 3 250000 [] 0 0 [] =
        batch_loop ⟨fun k => .ok (ids k), pr, bal0, b⟩ true precision
        100000 2 150000 [ids 0] 1 2 [mkSellReq 0 100000] := by
      show batch_loop _ true precision 100000 (2 + 1) 250000 [] 0 0 [] = _
      rw [batch_loop]
      rw [if_neg (by norm_num : ¬(2 = 0)), hmin1]
      dsimp only
      rw [hf100k, if_neg (by norm_num : ¬((100000 : ℚ) ≤ 0))]
      norm_num
    have step2 : batch_loop ⟨fun k => .ok (ids k), pr, bal0, b⟩ true precision
        100000 2 150000 [ids 0] 1 2 [mkSellReq 0 100000] =
        batch_loop ⟨fun k => .ok (ids k), pr, bal0, b⟩ true precision
        100000 1 50000 [ids 0, ids 1] 2 4
        [mkSellReq 0 100000, mkSellReq 2 100000] := by
      show batch_loop _ true precision 100000 (1 + 1) 150000 [ids 0] 1 2 _ = _
      rw [batch_loop]
      rw [if_neg (by norm_num : ¬(1 = 0)), hmin2]
      dsimp only
      rw [hf100k, if_neg (by norm_num : ¬((100000 : ℚ) ≤ 0))]
      norm_num
    have step3 : batch_loop ⟨fun k => .ok (ids k), pr, bal0, b⟩ true precision
        100000 1 50000 [ids 0, ids 1] 2 4
        [mkSellReq 0 100000, mkSellReq 2 100000] =
        .done [ids 0, ids 1, ids 2] 3 6
          [mkSellReq 0 100000, mkSellReq 2 100000,
           mkSellReq 4 ((⌊b * (98 / 100)⌋ : ℤ) : ℚ)] := by
      show batch_loop _ true precision 100000 (0 + 1) 50000 _ 2 4 _ = _
      rw [batch_loop]
      rw [if_pos rfl, if_neg hbpos]
      dsimp only
      rw [hfb, if_neg hflq]
      rw [batch_loop]
      norm_num
    unfold batch_sell_coin
    rw [if_pos
      (by norm_num : (if (true : Bool) = true then (100000 : ℚ) else 100) < 250000)]
    dsimp only
    rw [show (if (true : Bool) = true then (100000 : ℚ) else 100) = 100000 from rfl]
    rw [hflo]
    rw [show (((2 : ℤ).toNat) +
        if 0 < (250000 : ℚ) - 100000 * ((2 : ℤ) : ℚ) then 1 else 0) = 3 by
      norm_num
      rfl]
    rw [step1, step2, step3]
    rfl
  · norm_num [List.chain'_cons, mkSellReq]

/-- Witness for C8 at live balance 50000 (so the last batch sells
floor(49000) = 49000). -/
theorem batch_sell_decomposition_witness :
    batch_sell_coin ⟨fun k => .ok (toString k), Except.ok none, 0, 50000⟩
        true 2 250000 0 0 [] =
      (some (toString 0),
       [mkSellReq 0 100000, mkSellReq 2 100000,
        mkSellReq 4 ((⌊(50000 : ℚ) * (98 / 100)⌋ : ℤ) : ℚ)]) ∧
    List.Chain' (fun r1 r2 => r1.time + 2 ≤ r2.time)
      [mkSellReq 0 100000, mkSellReq 2 100000,
       mkSellReq 4 ((⌊(50000 : ℚ) * (98 / 100)⌋ : ℤ) : ℚ)] :=
  batch_sell_decomposition (fun k => toString k) 50000 2 (Except.ok none) 0
    (by norm_num)

/-- Helper: every request built by `mkSellReq` is a quantity request. -/
theorem mk_is_quantity_request (t : Nat) (q : ℚ) :
    is_quantity_request (mkSellReq t q) := ⟨rfl, rfl, rfl, rfl⟩

/-- Helper: a pointwise property extends along list append. -/
theorem pred_append_reqs (P : SellReq → Prop) (trace add : List SellReq)
    (h : ∀ r ∈ trace, P r) (ha : ∀ r ∈ add, P r) :
    ∀ r ∈ trace ++ add, P r := by
  intro r hr
  rcases List.mem_append.mp hr with h1 | h1
  · exact h r h1
  · exact ha r h1

/-- Helper: a one-request list consists of quantity requests. -/
theorem singleton_reqs (t : Nat) (q : ℚ) :
    ∀ r ∈ [mkSellReq t q], is_quantity_request r := by
  intro r hr
  rw [List.mem_singleton] at hr
  subst hr
  exact mk_is_quantity_request t q

/-- Helper: a two-request list consists of quantity requests. -/
theorem pair_reqs (t : Nat) (q : ℚ) (t2 : Nat) (q2 : ℚ) :
    ∀ r ∈ [mkSellReq t q, mkSellReq t2 q2], is_quantity_request r := by
  intro r hr
  rcases List.mem_cons.mp hr with h | h
  · subst h
    exact mk_is_quantity_request t q
  · rw [List.mem_singleton] at h
    subst h
    exact mk_is_quantity_request t2 q2

/-- Helper: the batch loop only ever appends quantity requests. -/
theorem batch_loop_trace_pred (env : ExchangeEnv) (isInt : Bool) (prec : Nat)
    (maxB : ℚ) :
    ∀ (j : Nat) (remaining : ℚ) (succ : List String) (k clock : Nat)
      (trace : List SellReq), (∀ r ∈ trace, is_quantity_request r) →
      quantity_only_res (batch_loop env isInt prec maxB j remaining succ k clock trace) := by
  intro j
  induction j with
  | zero =>
    intro remaining succ k clock trace htr
    exact htr
  | succ j ih =>
    intro remaining succ k clock trace htr
    rw [batch_loop]
    dsimp only
    repeat' split
    all_goals
      first
        | exact htr
        | exact ih _ _ _ _ _ htr
        | exact ih _ _ _ _ _ (pred_append_reqs _ _ _ htr (singleton_reqs _ _))
        | exact ih _ _ _ _ _ (pred_append_reqs _ _ _ htr (pair_reqs _ _ _ _))
        | exact pred_append_reqs _ _ _ htr (singleton_reqs _ _)
        | exact pred_append_reqs _ _ _ htr (pair_reqs _ _ _ _)

/-- Helper: extending a longer prefix extends any of its prefixes. -/
theorem extends_trace_mono (trace add : List SellReq) (R : BatchLoopRes)
    (h : extends_trace (trace ++ add) R) : extends_trace trace R := by
  obtain ⟨tl, htl⟩ := h
  exact ⟨add ++ tl, by rw [htl, List.append_assoc]⟩

/-- Helper: the batch loop extends the trace it is given. -/
theorem batch_loop_trace_extends (env : ExchangeEnv) (isInt : Bool)
    (prec : Nat) (maxB : ℚ) :
    ∀ (j : Nat) (remaining : ℚ) (succ : List String) (k clock : Nat)
      (trace : List SellReq),
      extends_trace trace (batch_loop env isInt prec maxB j remaining succ k clock trace) := by
  intro j
  induction j with
  | zero =>
    intro remaining succ k clock trace
    exact ⟨[], (List.append_nil _).symm⟩
  | succ j ih =>
    intro remaining succ k clock trace
    rw [batch_loop]
    dsimp only
    repeat' split
    all_goals
      first
        | exact ih _ _ _ _ _
        | exact extends_trace_mono _ _ _ (ih _ _ _ _ _)
        | exact ⟨_, rfl⟩
        | exact ⟨[], (List.append_nil _).symm⟩

/-- Helper: the 50-percent attempt appends exactly one request. -/
theorem final_half_sell_trace (env : ExchangeEnv) (isInt : Bool) (prec : Nat)
    (total : ℚ) (k clock : Nat) (trace : List SellReq) :
    (final_half_sell env isInt prec total k clock trace).2 =
      trace ++ [mkSellReq clock (format_quantity isInt prec (total * (1 / 2)))] := by
  unfold final_half_sell
  split <;> rfl

/-- Helper: post-loop processing preserves the quantity-request shape. -/
theorem batch_postprocess_pred (env : ExchangeEnv) (isInt : Bool) (prec : Nat)
    (total : ℚ) (R : BatchLoopRes) (hR : quantity_only_res R) :
    ∀ r ∈ (batch_postprocess env isInt prec total R).2, is_quantity_request r := by
  unfold batch_postprocess
  repeat' split
  all_goals
    first
      | exact hR
      | (rw [final_half_sell_trace]
         exact pred_append_reqs _ _ _ hR (singleton_reqs _ _))

/-- Helper: post-loop processing extends the loop trace. -/
theorem batch_postprocess_extends (env : ExchangeEnv) (isInt : Bool)
    (prec : Nat) (total : ℚ) (R : BatchLoopRes) :
    ∃ tl, (batch_postprocess env isInt prec total R).2 = R.trace ++ tl := by
  unfold batch_postprocess
  repeat' split
  all_goals
    first
      | exact ⟨[], (List.append_nil _).symm⟩
      | (rw [final_half_sell_trace]
         exact ⟨_, rfl⟩)

/-- Helper: every request of the batch seller is a quantity request. -/
theorem batch_sell_coin_pred (env : ExchangeEnv) (isInt : Bool) (prec : Nat)
    (total : ℚ) (k0 clock0 : Nat) (trace0 : List SellReq)
    (htr : ∀ r ∈ trace0, is_quantity_request r) :
    ∀ r ∈ (batch_sell_coin env isInt prec total k0 clock0 trace0).2,
      is_quantity_request r := by
  unfold batch_sell_coin
  dsimp only
  split_ifs
  all_goals
    first
      | exact batch_postprocess_pred _ _ _ _ _
          (batch_loop_trace_pred _ _ _ _ _ _ _ _ _ _ htr)
      | (rw [final_half_sell_trace]
         exact pred_append_reqs _ _ _ htr (singleton_reqs _ _))

/-- Helper: loop plus post-processing extends the initial trace. -/
theorem batch_postprocess_loop_extends (env : ExchangeEnv) (isInt : Bool)
    (prec : Nat) (total maxB rem : ℚ) (j : Nat) (succ : List String)
    (k0 clock0 : Nat) (trace0 : List SellReq) :
    ∃ tl, (batch_postprocess env isInt prec total
        (batch_loop env isInt prec maxB j rem succ k0 clock0 trace0)).2 =
      trace0 ++ tl := by
  obtain ⟨tl1, h1⟩ := batch_postprocess_extends env isInt prec total
    (batch_loop env isInt prec maxB j rem succ k0 clock0 trace0)
  obtain ⟨tl2, h2⟩ := batch_loop_trace_extends env isInt prec maxB j rem succ
    k0 clock0 trace0
  exact ⟨tl2 ++ tl1, by rw [h1, h2, List.append_assoc]⟩

/-- Helper: the batch seller extends the trace it is given. -/
theorem batch_sell_coin_extends (env : ExchangeEnv) (isInt : Bool)
    (prec : Nat) (total : ℚ) (k0 clock0 : Nat) (trace0 : List SellReq) :
    ∃ tl, (batch_sell_coin env isInt prec total k0 clock0 trace0).2 = trace0 ++ tl := by
  unfold batch_sell_coin
  dsimp only
  split_ifs
  all_goals
    first
      | apply batch_postprocess_loop_extends
      | (rw [final_half_sell_trace]
         exact ⟨_, rfl⟩)

/-- Helper: the rebuilt retry trace consists of quantity requests. -/
theorem cons_map_reqs (t : Nat) (q : ℚ) (fs : List ℚ) :
    ∀ r ∈ mkSellReq t q :: fs.map (mkSellReq 0), is_quantity_request r := by
  intro r hr
  rcases List.mem_cons.mp hr with h | h
  · subst h
    exact mk_is_quantity_request _ _
  · obtain ⟨a, _, ha⟩ := List.mem_map.mp h
    rw [← ha]
    exact mk_is_quantity_request _ _

/-- Helper: a successful retry ladder yields a quantity-request trace
extending its input. -/
theorem retry_formats_spec (env : ExchangeEnv) :
    ∀ (fs : List ℚ) (k : Nat) (trace : List SellReq),
      (∀ r ∈ trace, is_quantity_request r) →
      ∀ res tr, retry_formats_loop env fs k trace = some (res, tr) →
        (∀ r ∈ tr, is_quantity_request r) ∧ ∃ tl, tr = trace ++ tl := by
  intro fs
  induction fs with
  | nil =>
    intro k trace htr res tr h
    simp [retry_formats_loop] at h
  | cons f rest ih =>
    intro k trace htr res tr h
    rw [retry_formats_loop] at h
    split at h
    · simp only [Option.some.injEq, Prod.mk.injEq] at h
      obtain ⟨hres, htr2⟩ := h
      subst htr2
      exact ⟨pred_append_reqs _ _ _ htr (singleton_reqs _ _),
        ⟨[mkSellReq 0 f], rfl⟩⟩
    · obtain ⟨hp, tl, htl⟩ := ih (k + 1) (trace ++ [mkSellReq 0 f])
        (pred_append_reqs _ _ _ htr (singleton_reqs _ _)) res tr h
      exact ⟨hp, ⟨[mkSellReq 0 f] ++ tl, by rw [htl, List.append_assoc]⟩⟩
    · simp only [Option.some.injEq, Prod.mk.injEq] at h
      obtain ⟨hres, htr2⟩ := h
      subst htr2
      exact ⟨pred_append_reqs _ _ _ htr (singleton_reqs _ _),
        ⟨[mkSellReq 0 f], rfl⟩⟩

/-- Helper: every request the submission flow sends is a quantity
request. -/
theorem sell_coin_submit_pred (env : ExchangeEnv) (isInt : Bool) (prec : Nat)
    (q : ℚ) :
    ∀ r ∈ (sell_coin_submit env isInt prec q).2, is_quantity_request r := by
  unfold sell_coin_submit
  split
  · intro r hr
    simp at hr
  · split
    · exact singleton_reqs _ _
    · exact singleton_reqs _ _
    · split_ifs <;>
        first
          | exact singleton_reqs _ _
          | (dsimp only
             split <;>
               first
                 | (rename_i result heq
                    obtain ⟨res, tr⟩ := result
                    exact (retry_formats_spec env _ 1 _ (singleton_reqs _ _)
                      res tr heq).1)
                 | exact batch_sell_coin_pred _ _ _ _ _ _ _ (cons_map_reqs _ _ _))

/-- Helper: when a price is available, the first request of the submission
flow carries the formatted resolved quantity. -/
theorem sell_coin_submit_head (env : ExchangeEnv) (isInt : Bool) (prec : Nat)
    (q : ℚ) (po : Option ℚ) (hp : env.price = .ok po) :
    (sell_coin_submit env isInt prec q).2.head? =
      some (mkSellReq 0 (format_quantity isInt prec q)) := by
  unfold sell_coin_submit
  rw [hp]
  split
  · simp_all
  · split
    · rfl
    · rfl
    · split_ifs <;>
        first
          | rfl
          | (dsimp only
             split <;>
               first
                 | (rename_i result heq
                    obtain ⟨res, tr⟩ := result
                    obtain ⟨_, tl, htl⟩ :=
                      retry_formats_spec env _ 1 _ (singleton_reqs _ _) res tr heq
                    rw [htl]
                    rfl)
                 | (obtain ⟨tl, htl⟩ :=
                      batch_sell_coin_extends env isInt prec q 4 0 _
                    rw [htl]
                    rfl))

/-- C3: every order request the sell path sends to the exchange is a
market sell carrying a `quantity` parameter and never a `notional`
parameter; a supplied notional is converted by dividing by the current
price before submission (the first request carries the formatted `nv / p`),
and when no current price is obtainable the whole operation fails with no
order id and no request sent. -/
theorem sell_notional_never_sent (env : ExchangeEnv) (isInt : Bool)
    (prec : Nat) (quantity notional : Option ℚ) :
    (∀ r ∈ (sell_coin env isInt prec quantity notional).2, is_quantity_request r) ∧
    (∀ nv, notional = some nv →
      (env.price = .error () ∨ env.price = .ok none ∨ env.price = .ok (some 0)) →
      sell_coin env isInt prec quantity notional = (none, [])) ∧
    (∀ nv p, notional = some nv → env.price = .ok (some p) → p ≠ 0 →
      (sell_coin env isInt prec quantity notional).2.head? =
        some (mkSellReq 0 (format_quantity isInt prec (nv / p)))) := by
  refine ⟨?_, ?_, ?_⟩
  · unfold sell_coin
    rcases notional with _ | nv
    · rcases quantity with _ | q1
      · exact sell_coin_submit_pred env isInt prec _
      · exact sell_coin_submit_pred env isInt prec _
    · rcases hpr : env.price with u | po
      · intro r hr
        simp at hr
      · rcases po with _ | p
        · intro r hr
          simp at hr
        · show ∀ r ∈ (if p = 0 then ((none : Option String), ([] : List SellReq))
              else sell_coin_submit env isInt prec (nv / p)).2, is_quantity_request r
          split_ifs
          · intro r hr
            simp at hr
          · exact sell_coin_submit_pred env isInt prec _
  · intro nv hnv hbad
    subst hnv
    unfold sell_coin
    rcases hbad with h | h | h <;> rw [h]
    all_goals rfl
  · intro nv p hnv hp hpz
    subst hnv
    unfold sell_coin
    rw [hp]
    show (if p = 0 then ((none : Option String), ([] : List SellReq))
        else sell_coin_submit env isInt prec (nv / p)).2.head? = _
    rw [if_neg hpz]
    exact sell_coin_submit_head env isInt prec _ _ hp

/-- Witness for C3: with price 2 and a notional of 10, the converted
quantity 5 is what the first (and only) request carries, the request list
is all quantity requests, and with no price the call fails empty. -/
theorem sell_notional_never_sent_witness :
    ((sell_coin ⟨fun _ => .ok "oid-1", .ok (some 2), 0, 0⟩ true 2 none
        (some 10)).2.head? = some (mkSellReq 0 (format_quantity true 2 (10 / 2)))) ∧
    (sell_coin ⟨fun _ => .ok "oid-1", .ok none, 0, 0⟩ true 2 none (some 10) =
      (none, [])) :=
  ⟨(sell_notional_never_sent ⟨fun _ => .ok "oid-1", .ok (some 2), 0, 0⟩
      true 2 none (some 10)).2.2 10 2 rfl rfl (by norm_num),
   (sell_notional_never_sent ⟨fun _ => .ok "oid-1", .ok none, 0, 0⟩
      true 2 none (some 10)).2.1 10 rfl (Or.inr (Or.inl rfl))⟩
